import Mathlib

/-!
# FlowCredit `RevenueLoan` — verification of the loan-ledger state machine

Shallow embedding of `src/contracts/RevenueLoan.sol` (contract `RevenueLoan`,
Solidity 0.8, OpenZeppelin `Ownable`/`Pausable`/`ReentrancyGuard`).

Modelling conventions:
* Addresses and wei amounts are natural numbers.  Solidity 0.8 checked
  arithmetic reverts on `uint256` overflow; the quantities here (wei amounts
  bounded by the total ether supply) never reach `2^256` on any reachable
  input, so amounts are modelled as unbounded naturals.  `uint256` division
  is truncating, which coincides with `Nat` division.
* `mapping(uint256 => Loan)` is a total function defaulting to the
  all-zero record, exactly as EVM storage does.
* Each external entry point is a function from the contract state and the
  call arguments to `Except Err (List Action)`: a revert (`Except.error`)
  rolls the whole call back, a success returns the ordered trace of storage
  writes, event emissions and outgoing value transfers performed by the
  call, in source order.  The post-state of a successful call is the fold
  of its storage writes over the pre-state (`runActions`).
* Outgoing low-level calls (`.call{value: …}("")`) are modelled as
  accepted by the environment; a recipient that rejects makes the whole
  call revert with no state change, which is already the semantics of the
  `Except.error` branches.
* `block.timestamp` is passed explicitly as a `now` argument to the entry
  points that read it.
-/

namespace RevenueLoan

/-- The `Loan` struct of `RevenueLoan.sol`. -/
structure Loan where
  borrower            : Nat
  lender              : Nat
  principal           : Nat
  revenueSharePercent : Nat
  repaymentCapPercent : Nat
  totalRepaid         : Nat
  funded              : Bool
  active              : Bool
  collateralAmount    : Nat
  startTime           : Nat
  duration            : Nat
deriving DecidableEq, Repr

/-- The all-zero `Loan` record: the value of an EVM storage slot that was
never written. -/
def emptyLoan : Loan :=
  { borrower := 0, lender := 0, principal := 0, revenueSharePercent := 0,
    repaymentCapPercent := 0, totalRepaid := 0, funded := false,
    active := false, collateralAmount := 0, startTime := 0, duration := 0 }

/-- Contract storage: the `loans` mapping, `nextLoanId`, the `Pausable`
flag and the `Ownable` owner. -/
structure ContractState where
  loans      : Nat → Loan
  nextLoanId : Nat
  paused     : Bool
  owner      : Nat

/-- The custom errors of the contract, plus the OpenZeppelin
`Pausable`/`Ownable` errors raised by the modifiers. -/
inductive Err where
  | NotBorrower | NotLender | LoanDoesNotExist | LoanAlreadyFunded
  | LoanAlreadyActive | LoanNotFunded | LoanNotActive | InvalidPrincipal
  | InvalidRevenueShare | InvalidRepaymentCap | InvalidDuration
  | IncorrectFundingAmount | RepaymentMustBePositive | CollateralTooHigh
  | BorrowerCannotFundOwnLoan | LoanNotMatured | LoanFullyRepaid
  | NoCollateral | TransferFailed
  | EnforcedPause | ExpectedPause | OwnableUnauthorizedAccount
deriving DecidableEq, Repr

/-- The events declared by the contract. -/
inductive Event where
  | LoanCreated (loanId borrower principal revenueSharePercent
      repaymentCapPercent duration collateralAmount : Nat)
  | LoanFunded (loanId lender : Nat)
  | LoanRepaid (loanId amount : Nat)
  | LoanClosed (loanId : Nat)
  | CollateralClaimed (loanId claimer : Nat)
  | LoanDefaulted (loanId : Nat)
deriving DecidableEq, Repr

/-- One step of an executing call: a storage write, an event emission or an
outgoing value transfer, recorded in source order. -/
inductive Action where
  | storeLoan (loanId : Nat) (l : Loan)
  | setNextLoanId (v : Nat)
  | setLender (loanId who : Nat)
  | setFunded (loanId : Nat) (b : Bool)
  | setActive (loanId : Nat) (b : Bool)
  | setStartTime (loanId v : Nat)
  | setTotalRepaid (loanId v : Nat)
  | setCollateral (loanId v : Nat)
  | setPaused (b : Bool)
  | emitEvent (e : Event)
  | transfer (dst amount : Nat)
deriving DecidableEq, Repr

/-- Is the action a storage mutation (as opposed to an event or a value
transfer)? -/
def Action.isMutation : Action → Bool
  | .emitEvent _ => false
  | .transfer _ _ => false
  | _ => true

/-- Is the action an outgoing value transfer? -/
def Action.isTransfer : Action → Bool
  | .transfer _ _ => true
  | _ => false

/-- The event emitted by the action, if it is an emission. -/
def Action.eventOf : Action → Option Event
  | .emitEvent e => some e
  | _ => none

/-- Pointwise update of one loan record in storage. -/
def setLoanField (σ : ContractState) (loanId : Nat) (f : Loan → Loan) :
    ContractState :=
  { σ with loans := fun i => if i = loanId then f (σ.loans i) else σ.loans i }

/-- Apply one storage write to the state; events and transfers do not touch
contract storage. -/
def applyAction (σ : ContractState) : Action → ContractState
  | .storeLoan loanId l => setLoanField σ loanId (fun _ => l)
  | .setNextLoanId v => { σ with nextLoanId := v }
  | .setLender loanId who => setLoanField σ loanId (fun l => { l with lender := who })
  | .setFunded loanId b => setLoanField σ loanId (fun l => { l with funded := b })
  | .setActive loanId b => setLoanField σ loanId (fun l => { l with active := b })
  | .setStartTime loanId v => setLoanField σ loanId (fun l => { l with startTime := v })
  | .setTotalRepaid loanId v => setLoanField σ loanId (fun l => { l with totalRepaid := v })
  | .setCollateral loanId v => setLoanField σ loanId (fun l => { l with collateralAmount := v })
  | .setPaused b => { σ with paused := b }
  | .emitEvent _ => σ
  | .transfer _ _ => σ

/-- The post-state of a successful call: fold of its trace over the
pre-state. -/
def runActions (σ : ContractState) (acts : List Action) : ContractState :=
  acts.foldl applyAction σ

/-- The `requiredRepayment` quantity as computed by the contract:
`principal * repaymentCapPercent / 100` with truncating division. -/
def Loan.requiredRepayment (l : Loan) : Nat :=
  l.principal * l.repaymentCapPercent / 100

/-- Entry point `createLoan` (RevenueLoan.sol lines 163–199).  `value` is `msg.value`
(the posted collateral), `sender` is `msg.sender`. -/
def createLoan (σ : ContractState)
    (sender value amount revenueSharePercent repaymentCapPercent duration : Nat) :
    Except Err (List Action) :=
  if σ.paused then .error .EnforcedPause
  else if amount = 0 then .error .InvalidPrincipal
  else if revenueSharePercent = 0 then .error .InvalidRevenueShare
  else if repaymentCapPercent < 100 then .error .InvalidRepaymentCap
  else if duration = 0 then .error .InvalidDuration
  else if amount < value then .error .CollateralTooHigh
  else
    .ok [Action.setNextLoanId (σ.nextLoanId + 1),
         Action.storeLoan σ.nextLoanId
           { borrower := sender, lender := 0, principal := amount,
             revenueSharePercent := revenueSharePercent,
             repaymentCapPercent := repaymentCapPercent, totalRepaid := 0,
             funded := false, active := false, collateralAmount := value,
             startTime := 0, duration := duration },
         Action.emitEvent (Event.LoanCreated σ.nextLoanId sender amount
           revenueSharePercent repaymentCapPercent duration value)]

/-- Entry point `fundLoan` (RevenueLoan.sol lines 208–236).  Modifier order:
`nonReentrant`, `whenNotPaused`, `loanExists`. -/
def fundLoan (σ : ContractState) (sender value now loanId : Nat) :
    Except Err (List Action) :=
  if σ.paused then .error .EnforcedPause
  else if loanId = 0 ∨ σ.nextLoanId ≤ loanId then .error .LoanDoesNotExist
  else if (σ.loans loanId).funded then .error .LoanAlreadyFunded
  else if (σ.loans loanId).active then .error .LoanAlreadyActive
  else if sender = (σ.loans loanId).borrower then .error .BorrowerCannotFundOwnLoan
  else if value ≠ (σ.loans loanId).principal then .error .IncorrectFundingAmount
  else
    .ok [Action.setLender loanId sender,
         Action.setFunded loanId true,
         Action.setActive loanId true,
         Action.setStartTime loanId now,
         Action.emitEvent (Event.LoanFunded loanId sender),
         Action.transfer (σ.loans loanId).borrower value]

/-- Entry point `repay` (RevenueLoan.sol lines 245–290).  Modifier order:
`nonReentrant`, `whenNotPaused`, `loanExists`, `onlyBorrower`,
`loanFunded`, `loanActive`.  The trace follows the source: the
`totalRepaid` write and the `LoanRepaid` emission, then the forward to the
lender, then — only if the cap is reached — the close (clear `active`,
zero and pay out a positive collateral, emit `LoanClosed`). -/
def repay (σ : ContractState) (sender value loanId : Nat) :
    Except Err (List Action) :=
  if σ.paused then .error .EnforcedPause
  else if loanId = 0 ∨ σ.nextLoanId ≤ loanId then .error .LoanDoesNotExist
  else if (σ.loans loanId).borrower ≠ sender then .error .NotBorrower
  else if (σ.loans loanId).funded = false then .error .LoanNotFunded
  else if (σ.loans loanId).active = false then .error .LoanNotActive
  else if value = 0 then .error .RepaymentMustBePositive
  else
    let loan := σ.loans loanId
    let newTotalRepaid := loan.totalRepaid + value
    let base := [Action.setTotalRepaid loanId newTotalRepaid,
                 Action.emitEvent (Event.LoanRepaid loanId value),
                 Action.transfer loan.lender value]
    if loan.requiredRepayment ≤ newTotalRepaid then
      .ok (base ++ Action.setActive loanId false ::
        ((if 0 < loan.collateralAmount then
            [Action.setCollateral loanId 0,
             Action.transfer loan.borrower loan.collateralAmount]
          else []) ++ [Action.emitEvent (Event.LoanClosed loanId)]))
    else
      .ok base

/-- Entry point `claimCollateral` (RevenueLoan.sol lines 299–338).  Modifier order:
`nonReentrant`, `whenNotPaused`, `loanExists`, `onlyLender`, `loanFunded`,
`loanActive`. -/
def claimCollateral (σ : ContractState) (sender now loanId : Nat) :
    Except Err (List Action) :=
  if σ.paused then .error .EnforcedPause
  else if loanId = 0 ∨ σ.nextLoanId ≤ loanId then .error .LoanDoesNotExist
  else if (σ.loans loanId).lender ≠ sender then .error .NotLender
  else if (σ.loans loanId).funded = false then .error .LoanNotFunded
  else if (σ.loans loanId).active = false then .error .LoanNotActive
  else if now ≤ (σ.loans loanId).startTime + (σ.loans loanId).duration then
    .error .LoanNotMatured
  else if (σ.loans loanId).requiredRepayment ≤ (σ.loans loanId).totalRepaid then
    .error .LoanFullyRepaid
  else if (σ.loans loanId).collateralAmount = 0 then .error .NoCollateral
  else
    .ok [Action.setActive loanId false,
         Action.setCollateral loanId 0,
         Action.emitEvent (Event.LoanDefaulted loanId),
         Action.emitEvent (Event.CollateralClaimed loanId sender),
         Action.emitEvent (Event.LoanClosed loanId),
         Action.transfer (σ.loans loanId).lender (σ.loans loanId).collateralAmount]

/-- View `getLoan` (RevenueLoan.sol lines 350–357): read-only, guarded only by
`loanExists` (no pause gate). -/
def getLoan (σ : ContractState) (loanId : Nat) : Except Err Loan :=
  if loanId = 0 ∨ σ.nextLoanId ≤ loanId then .error .LoanDoesNotExist
  else .ok (σ.loans loanId)

/-- Admin `pause` (RevenueLoan.sol lines 136–138): `onlyOwner`, then OpenZeppelin
`_pause`, which itself requires the contract not to be paused. -/
def pause (σ : ContractState) (sender : Nat) : Except Err (List Action) :=
  if sender ≠ σ.owner then .error .OwnableUnauthorizedAccount
  else if σ.paused then .error .EnforcedPause
  else .ok [Action.setPaused true]

/-- Admin `unpause` (RevenueLoan.sol lines 144–146): `onlyOwner`, then
OpenZeppelin `_unpause`, which requires the contract to be paused. -/
def unpause (σ : ContractState) (sender : Nat) : Except Err (List Action) :=
  if sender ≠ σ.owner then .error .OwnableUnauthorizedAccount
  else if σ.paused = false then .error .ExpectedPause
  else .ok [Action.setPaused false]

/-- One external transaction against the ledger. -/
inductive Op where
  | create (sender value amount revenueSharePercent repaymentCapPercent duration : Nat)
  | fund (sender value now loanId : Nat)
  | repay (sender value loanId : Nat)
  | claim (sender now loanId : Nat)
  | pauseSwitch (sender : Nat)
  | unpauseSwitch (sender : Nat)
deriving DecidableEq, Repr

/-- Dispatch an operation to its entry point. -/
def callOf (σ : ContractState) : Op → Except Err (List Action)
  | .create s v a r c d => createLoan σ s v a r c d
  | .fund s v n id => fundLoan σ s v n id
  | .repay s v id => repay σ s v id
  | .claim s n id => claimCollateral σ s n id
  | .pauseSwitch s => pause σ s
  | .unpauseSwitch s => unpause σ s

/-- Transaction semantics: a successful call commits its storage writes, a
revert leaves storage untouched. -/
def exec (σ : ContractState) (op : Op) : ContractState :=
  match callOf σ op with
  | .ok acts => runActions σ acts
  | .error _ => σ

/-- A sequence of transactions. -/
def execs (σ : ContractState) (ops : List Op) : ContractState :=
  ops.foldl exec σ

/-! ## Trace-order predicates -/

/-- Checks-effects-interactions in the strict sense: once any value
transfer has happened, no storage mutation follows in the trace. -/
def mutationsBeforeTransfers : List Action → Bool
  | [] => true
  | a :: rest =>
    if a.isTransfer then rest.all (fun b => !b.isMutation)
    else mutationsBeforeTransfers rest

/-- The first action of the trace is the `totalRepaid` write. -/
def headIsTotalRepaidWrite : List Action → Bool
  | Action.setTotalRepaid _ _ :: _ => true
  | _ => false

/-- Every write that zeroes a collateral slot is immediately followed by
the transfer paying that collateral out. -/
def collateralZeroThenPayout : List Action → Bool
  | [] => true
  | Action.setCollateral _ v :: rest =>
    (if v = 0 then
       match rest with
       | Action.transfer _ _ :: _ => true
       | _ => false
     else true) && collateralZeroThenPayout rest
  | _ :: rest => collateralZeroThenPayout rest

/-- Every clearing of an `active` flag in the trace is preceded by at least
one value transfer (the accumulator records whether a transfer was already
seen). -/
def transferPrecedesActiveClear : Bool → List Action → Bool
  | _, [] => true
  | seen, Action.setActive _ b :: rest =>
    (b || seen) && transferPrecedesActiveClear seen rest
  | seen, a :: rest => transferPrecedesActiveClear (seen || a.isTransfer) rest

/-- The events emitted along the trace, in order. -/
def eventsOf (acts : List Action) : List Event :=
  acts.filterMap Action.eventOf

/-- Once any value transfer has happened, no event is emitted afterwards:
all emissions precede all transfers. -/
def eventsBeforeTransfers : List Action → Bool
  | [] => true
  | a :: rest =>
    if a.isTransfer then rest.all (fun b => b.eventOf.isNone)
    else eventsBeforeTransfers rest

/-! ## Sample states used by witnesses and counterexamples -/

/-- A funded, active loan: borrower `1`, lender `2`, principal `10`,
cap `120` % (required repayment `12`), collateral `2`, funded at time
`100` for `700` seconds. -/
def fundedLoan : Loan :=
  { borrower := 1, lender := 2, principal := 10, revenueSharePercent := 10,
    repaymentCapPercent := 120, totalRepaid := 0, funded := true,
    active := true, collateralAmount := 2, startTime := 100, duration := 700 }

/-- A ledger holding exactly the loan `fundedLoan` under id `1`. -/
def σFunded : ContractState :=
  { loans := fun i => if i = 1 then fundedLoan else emptyLoan,
    nextLoanId := 2, paused := false, owner := 0 }

/-- The same loan before funding: no lender, not funded, not active. -/
def createdLoan : Loan :=
  { fundedLoan with lender := 0, funded := false, active := false, startTime := 0 }

/-- A ledger holding exactly the unfunded loan `createdLoan` under id `1`. -/
def σCreated : ContractState :=
  { σFunded with loans := fun i => if i = 1 then createdLoan else emptyLoan }

/-- The funded ledger with the pause switch on. -/
def σPaused : ContractState :=
  { σFunded with paused := true }

/-- The ledger right after deployment: no loans, not paused. -/
def σEmpty : ContractState :=
  { loans := fun _ => emptyLoan, nextLoanId := 1, paused := false, owner := 0 }

/-! ## Storage-update helper lemmas -/

theorem setLoanField_loans_self (σ : ContractState) (loanId : Nat) (f : Loan → Loan) :
    (setLoanField σ loanId f).loans loanId = f (σ.loans loanId) := by
  simp [setLoanField]

theorem setLoanField_loans_other (σ : ContractState) (loanId j : Nat) (f : Loan → Loan)
    (h : j ≠ loanId) : (setLoanField σ loanId f).loans j = σ.loans j := by
  simp [setLoanField, h]

theorem setLoanField_nextLoanId (σ : ContractState) (loanId : Nat) (f : Loan → Loan) :
    (setLoanField σ loanId f).nextLoanId = σ.nextLoanId := rfl

theorem setLoanField_paused (σ : ContractState) (loanId : Nat) (f : Loan → Loan) :
    (setLoanField σ loanId f).paused = σ.paused := rfl

/-! ## Inversion lemmas for successful calls -/

theorem createLoan_ok_inv (σ : ContractState)
    (s v a r c d : Nat) (acts : List Action)
    (h : createLoan σ s v a r c d = Except.ok acts) :
    acts = [Action.setNextLoanId (σ.nextLoanId + 1),
            Action.storeLoan σ.nextLoanId
              { borrower := s, lender := 0, principal := a,
                revenueSharePercent := r, repaymentCapPercent := c,
                totalRepaid := 0, funded := false, active := false,
                collateralAmount := v, startTime := 0, duration := d },
            Action.emitEvent (Event.LoanCreated σ.nextLoanId s a r c d v)] := by
  by_cases hp : σ.paused = true
  · simp [createLoan, hp] at h
  · by_cases h1 : a = 0
    · simp [createLoan, hp, h1] at h
    · by_cases h2 : r = 0
      · simp [createLoan, hp, h1, h2] at h
      · by_cases h3 : c < 100
        · simp [createLoan, hp, h1, h2, h3] at h
        · by_cases h4 : d = 0
          · simp [createLoan, hp, h1, h2, h3, h4] at h
          · by_cases h5 : a < v
            · simp [createLoan, hp, h1, h2, h3, h4, h5] at h
            · simp [createLoan, hp, h1, h2, h3, h4, h5] at h
              exact h.symm

theorem fundLoan_ok_inv (σ : ContractState) (s v n loanId : Nat)
    (acts : List Action) (h : fundLoan σ s v n loanId = Except.ok acts) :
    ¬(loanId = 0 ∨ σ.nextLoanId ≤ loanId) ∧
    (σ.loans loanId).funded = false ∧ (σ.loans loanId).active = false ∧
    acts = [Action.setLender loanId s, Action.setFunded loanId true,
            Action.setActive loanId true, Action.setStartTime loanId n,
            Action.emitEvent (Event.LoanFunded loanId s),
            Action.transfer (σ.loans loanId).borrower v] := by
  by_cases hp : σ.paused = true
  · simp [fundLoan, hp] at h
  · by_cases hex : loanId = 0 ∨ σ.nextLoanId ≤ loanId
    · simp [fundLoan, hp, hex] at h
    · by_cases hf : (σ.loans loanId).funded = true
      · simp [fundLoan, hp, hex, hf] at h
      · by_cases ha : (σ.loans loanId).active = true
        · simp [fundLoan, hp, hex, hf, ha] at h
        · by_cases hs : s = (σ.loans loanId).borrower
          · simp [fundLoan, hp, hex, hf, ha, hs] at h
          · by_cases hv : v = (σ.loans loanId).principal
            · subst hv
              simp [fundLoan, hp, hex, hf, ha, hs] at h
              exact ⟨hex, by simpa using hf, by simpa using ha, h.symm⟩
            · simp [fundLoan, hp, hex, hf, ha, hs, hv] at h

theorem repay_ok_inv (σ : ContractState) (s v loanId : Nat)
    (acts : List Action) (h : repay σ s v loanId = Except.ok acts) :
    ¬(loanId = 0 ∨ σ.nextLoanId ≤ loanId) ∧
    (σ.loans loanId).funded = true ∧ (σ.loans loanId).active = true ∧
    (acts = [Action.setTotalRepaid loanId ((σ.loans loanId).totalRepaid + v),
             Action.emitEvent (Event.LoanRepaid loanId v),
             Action.transfer (σ.loans loanId).lender v] ∨
     acts = [Action.setTotalRepaid loanId ((σ.loans loanId).totalRepaid + v),
             Action.emitEvent (Event.LoanRepaid loanId v),
             Action.transfer (σ.loans loanId).lender v,
             Action.setActive loanId false,
             Action.setCollateral loanId 0,
             Action.transfer (σ.loans loanId).borrower (σ.loans loanId).collateralAmount,
             Action.emitEvent (Event.LoanClosed loanId)] ∨
     acts = [Action.setTotalRepaid loanId ((σ.loans loanId).totalRepaid + v),
             Action.emitEvent (Event.LoanRepaid loanId v),
             Action.transfer (σ.loans loanId).lender v,
             Action.setActive loanId false,
             Action.emitEvent (Event.LoanClosed loanId)]) := by
  by_cases hp : σ.paused = true
  · simp [repay, hp] at h
  · by_cases hex : loanId = 0 ∨ σ.nextLoanId ≤ loanId
    · simp [repay, hp, hex] at h
    · by_cases hb : (σ.loans loanId).borrower = s
      · rw [hb]
        by_cases hf : (σ.loans loanId).funded = false
        · simp [repay, hp, hex, hb, hf] at h
        · by_cases ha : (σ.loans loanId).active = false
          · simp [repay, hp, hex, hb, hf, ha] at h
          · by_cases hv : v = 0
            · simp [repay, hp, hex, hb, hf, ha, hv] at h
            · by_cases hreq : (σ.loans loanId).requiredRepayment
                  ≤ (σ.loans loanId).totalRepaid + v
              · by_cases hcol : 0 < (σ.loans loanId).collateralAmount
                · simp [repay, hp, hex, hb, hf, ha, hv, hreq, hcol] at h
                  exact ⟨hex, by simpa using hf, by simpa using ha,
                    Or.inr (Or.inl h.symm)⟩
                · simp [repay, hp, hex, hb, hf, ha, hv, hreq, hcol] at h
                  exact ⟨hex, by simpa using hf, by simpa using ha,
                    Or.inr (Or.inr h.symm)⟩
              · simp [repay, hp, hex, hb, hf, ha, hv, hreq] at h
                exact ⟨hex, by simpa using hf, by simpa using ha, Or.inl h.symm⟩
      · simp [repay, hp, hex, hb] at h

theorem claimCollateral_ok_inv (σ : ContractState) (s n loanId : Nat)
    (acts : List Action) (h : claimCollateral σ s n loanId = Except.ok acts) :
    ¬(loanId = 0 ∨ σ.nextLoanId ≤ loanId) ∧
    (σ.loans loanId).funded = true ∧ (σ.loans loanId).active = true ∧
    acts = [Action.setActive loanId false,
            Action.setCollateral loanId 0,
            Action.emitEvent (Event.LoanDefaulted loanId),
            Action.emitEvent (Event.CollateralClaimed loanId s),
            Action.emitEvent (Event.LoanClosed loanId),
            Action.transfer (σ.loans loanId).lender (σ.loans loanId).collateralAmount] := by
  by_cases hp : σ.paused = true
  · simp [claimCollateral, hp] at h
  · by_cases hex : loanId = 0 ∨ σ.nextLoanId ≤ loanId
    · simp [claimCollateral, hp, hex] at h
    · by_cases hl : (σ.loans loanId).lender = s
      · by_cases hf : (σ.loans loanId).funded = false
        · simp [claimCollateral, hp, hex, hl, hf] at h
        · by_cases ha : (σ.loans loanId).active = false
          · simp [claimCollateral, hp, hex, hl, hf, ha] at h
          · by_cases hmat : n ≤ (σ.loans loanId).startTime + (σ.loans loanId).duration
            · simp [claimCollateral, hp, hex, hl, hf, ha, hmat] at h
            · by_cases hrep : (σ.loans loanId).requiredRepayment
                  ≤ (σ.loans loanId).totalRepaid
              · simp [claimCollateral, hp, hex, hl, hf, ha, hmat, hrep] at h
              · by_cases hcol : (σ.loans loanId).collateralAmount = 0
                · simp [claimCollateral, hp, hex, hl, hf, ha, hmat, hrep, hcol] at h
                · simp [claimCollateral, hp, hex, hl, hf, ha, hmat, hrep, hcol] at h
                  refine ⟨hex, by simpa using hf, by simpa using ha, ?_⟩
                  rw [← h]
                  simp [hl]
      · simp [claimCollateral, hp, hex, hl] at h

theorem pause_ok_inv (σ : ContractState) (s : Nat) (acts : List Action)
    (h : pause σ s = Except.ok acts) : acts = [Action.setPaused true] := by
  by_cases hs : s = σ.owner
  · by_cases hp : σ.paused = true
    · simp [pause, hs, hp] at h
    · simp [pause, hs, hp] at h
      exact h.symm
  · simp [pause, hs] at h

theorem unpause_ok_inv (σ : ContractState) (s : Nat) (acts : List Action)
    (h : unpause σ s = Except.ok acts) : acts = [Action.setPaused false] := by
  by_cases hs : s = σ.owner
  · by_cases hp : σ.paused = false
    · simp [unpause, hs, hp] at h
    · simp [unpause, hs, hp] at h
      exact h.symm
  · simp [unpause, hs] at h

/-! ## One-step evolution of a loan record -/

/-- How one transaction can affect an existing loan record: either it
leaves the `funded`/`active`/`collateralAmount` fields unchanged, or it is
the successful funding of this loan (sets both flags), or it is a
successful closing `repay`/`claimCollateral` of this loan (requires the
loan funded and active, clears `active`, keeps `funded`).  `nextLoanId`
never decreases. -/
theorem exec_loan_evolution :
    ∀ (σ : ContractState) (op : Op) (loanId : Nat),
      loanId < σ.nextLoanId →
      σ.nextLoanId ≤ (exec σ op).nextLoanId ∧
      ((((exec σ op).loans loanId).funded = (σ.loans loanId).funded ∧
        ((exec σ op).loans loanId).active = (σ.loans loanId).active ∧
        ((exec σ op).loans loanId).collateralAmount
          = (σ.loans loanId).collateralAmount) ∨
       ((σ.loans loanId).funded = false ∧ (σ.loans loanId).active = false ∧
        ((exec σ op).loans loanId).funded = true ∧
        ((exec σ op).loans loanId).active = true ∧
        ((exec σ op).loans loanId).collateralAmount
          = (σ.loans loanId).collateralAmount) ∨
       ((σ.loans loanId).funded = true ∧ (σ.loans loanId).active = true ∧
        ((exec σ op).loans loanId).funded = true ∧
        ((exec σ op).loans loanId).active = false ∧
        ((∃ s v, op = Op.repay s v loanId) ∨ (∃ s n, op = Op.claim s n loanId)))) := by
  intro σ op loanId hlt
  cases op with
  | create s v a r c d =>
    cases hcall : createLoan σ s v a r c d with
    | error e => simp [exec, callOf, hcall]
    | ok acts =>
      have hacts := createLoan_ok_inv σ s v a r c d acts hcall
      subst hacts
      have hne : loanId ≠ σ.nextLoanId := by omega
      constructor
      · simp [exec, callOf, hcall, runActions, applyAction, setLoanField]
      · left
        refine ⟨?_, ?_, ?_⟩ <;>
          simp [exec, callOf, hcall, runActions, applyAction, setLoanField, hne]
  | fund s v n id2 =>
    cases hcall : fundLoan σ s v n id2 with
    | error e => simp [exec, callOf, hcall]
    | ok acts =>
      obtain ⟨hex, hf, ha, hacts⟩ := fundLoan_ok_inv σ s v n id2 acts hcall
      subst hacts
      constructor
      · simp [exec, callOf, hcall, runActions, applyAction, setLoanField]
      · by_cases heq : loanId = id2
        · subst heq
          right; left
          refine ⟨hf, ha, ?_, ?_, ?_⟩ <;>
            simp [exec, callOf, hcall, runActions, applyAction, setLoanField]
        · left
          refine ⟨?_, ?_, ?_⟩ <;>
            simp [exec, callOf, hcall, runActions, applyAction, setLoanField, heq]
  | repay s v id2 =>
    cases hcall : repay σ s v id2 with
    | error e => simp [exec, callOf, hcall]
    | ok acts =>
      obtain ⟨hex, hf, ha, hacts⟩ := repay_ok_inv σ s v id2 acts hcall
      constructor
      · rcases hacts with hacts | hacts | hacts <;> subst hacts <;>
          simp [exec, callOf, hcall, runActions, applyAction, setLoanField]
      · by_cases heq : loanId = id2
        · subst heq
          rcases hacts with hacts | hacts | hacts
          · subst hacts
            left
            refine ⟨?_, ?_, ?_⟩ <;>
              simp [exec, callOf, hcall, runActions, applyAction, setLoanField]
          · subst hacts
            right; right
            refine ⟨hf, ha, ?_, ?_, Or.inl ⟨s, v, rfl⟩⟩ <;>
              simp [exec, callOf, hcall, runActions, applyAction, setLoanField, hf]
          · subst hacts
            right; right
            refine ⟨hf, ha, ?_, ?_, Or.inl ⟨s, v, rfl⟩⟩ <;>
              simp [exec, callOf, hcall, runActions, applyAction, setLoanField, hf]
        · left
          rcases hacts with hacts | hacts | hacts <;> subst hacts <;>
            refine ⟨?_, ?_, ?_⟩ <;>
              simp [exec, callOf, hcall, runActions, applyAction, setLoanField, heq]
  | claim s n id2 =>
    cases hcall : claimCollateral σ s n id2 with
    | error e => simp [exec, callOf, hcall]
    | ok acts =>
      obtain ⟨hex, hf, ha, hacts⟩ := claimCollateral_ok_inv σ s n id2 acts hcall
      subst hacts
      constructor
      · simp [exec, callOf, hcall, runActions, applyAction, setLoanField]
      · by_cases heq : loanId = id2
        · subst heq
          right; right
          refine ⟨hf, ha, ?_, ?_, Or.inr ⟨s, n, rfl⟩⟩ <;>
            simp [exec, callOf, hcall, runActions, applyAction, setLoanField, hf]
        · left
          refine ⟨?_, ?_, ?_⟩ <;>
            simp [exec, callOf, hcall, runActions, applyAction, setLoanField, heq]
  | pauseSwitch s =>
    cases hcall : pause σ s with
    | error e => simp [exec, callOf, hcall]
    | ok acts =>
      have hacts := pause_ok_inv σ s acts hcall
      subst hacts
      constructor
      · simp [exec, callOf, hcall, runActions, applyAction]
      · left
        refine ⟨?_, ?_, ?_⟩ <;> simp [exec, callOf, hcall, runActions, applyAction]
  | unpauseSwitch s =>
    cases hcall : unpause σ s with
    | error e => simp [exec, callOf, hcall]
    | ok acts =>
      have hacts := unpause_ok_inv σ s acts hcall
      subst hacts
      constructor
      · simp [exec, callOf, hcall, runActions, applyAction]
      · left
        refine ⟨?_, ?_, ?_⟩ <;> simp [exec, callOf, hcall, runActions, applyAction]

/-- The counter `nextLoanId` never decreases across a transaction. -/
theorem exec_nextLoanId_mono (σ : ContractState) (op : Op) :
    σ.nextLoanId ≤ (exec σ op).nextLoanId := by
  cases op with
  | create s v a r c d =>
    cases hcall : createLoan σ s v a r c d with
    | error e => simp [exec, callOf, hcall]
    | ok acts =>
      have hacts := createLoan_ok_inv σ s v a r c d acts hcall
      subst hacts
      simp [exec, callOf, hcall, runActions, applyAction, setLoanField]
  | fund s v n id2 =>
    cases hcall : fundLoan σ s v n id2 with
    | error e => simp [exec, callOf, hcall]
    | ok acts =>
      obtain ⟨_, _, _, hacts⟩ := fundLoan_ok_inv σ s v n id2 acts hcall
      subst hacts
      simp [exec, callOf, hcall, runActions, applyAction, setLoanField]
  | repay s v id2 =>
    cases hcall : repay σ s v id2 with
    | error e => simp [exec, callOf, hcall]
    | ok acts =>
      obtain ⟨_, _, _, hacts⟩ := repay_ok_inv σ s v id2 acts hcall
      rcases hacts with hacts | hacts | hacts <;> subst hacts <;>
        simp [exec, callOf, hcall, runActions, applyAction, setLoanField]
  | claim s n id2 =>
    cases hcall : claimCollateral σ s n id2 with
    | error e => simp [exec, callOf, hcall]
    | ok acts =>
      obtain ⟨_, _, _, hacts⟩ := claimCollateral_ok_inv σ s n id2 acts hcall
      subst hacts
      simp [exec, callOf, hcall, runActions, applyAction, setLoanField]
  | pauseSwitch s =>
    cases hcall : pause σ s with
    | error e => simp [exec, callOf, hcall]
    | ok acts =>
      have hacts := pause_ok_inv σ s acts hcall
      subst hacts
      simp [exec, callOf, hcall, runActions, applyAction]
  | unpauseSwitch s =>
    cases hcall : unpause σ s with
    | error e => simp [exec, callOf, hcall]
    | ok acts =>
      have hacts := unpause_ok_inv σ s acts hcall
      subst hacts
      simp [exec, callOf, hcall, runActions, applyAction]

/-- The flag `funded`, once true on an existing loan, survives any
transaction sequence. -/
theorem execs_funded_mono (ops : List Op) :
    ∀ (σ : ContractState) (loanId : Nat), loanId < σ.nextLoanId →
      (σ.loans loanId).funded = true →
      ((execs σ ops).loans loanId).funded = true := by
  induction ops with
  | nil => intro σ loanId _ hf; exact hf
  | cons op rest ih =>
    intro σ loanId hlt hf
    have hstep := exec_loan_evolution σ op loanId hlt
    have hlt' : loanId < (exec σ op).nextLoanId := lt_of_lt_of_le hlt hstep.1
    have hf' : ((exec σ op).loans loanId).funded = true := by
      rcases hstep.2 with ⟨h1, _, _⟩ | ⟨_, _, h3, _, _⟩ | ⟨_, _, h3, _, _⟩
      · rw [h1]
        exact hf
      · exact h3
      · exact h3
    exact ih (exec σ op) loanId hlt' hf'

/-- A funded loan whose `active` flag is down stays exactly so through any
transaction sequence. -/
theorem execs_closed_stays (ops : List Op) :
    ∀ (σ : ContractState) (loanId : Nat), loanId < σ.nextLoanId →
      (σ.loans loanId).funded = true → (σ.loans loanId).active = false →
      ((execs σ ops).loans loanId).funded = true ∧
      ((execs σ ops).loans loanId).active = false := by
  induction ops with
  | nil => intro σ loanId _ hf ha; exact ⟨hf, ha⟩
  | cons op rest ih =>
    intro σ loanId hlt hf ha
    have hstep := exec_loan_evolution σ op loanId hlt
    have hlt' : loanId < (exec σ op).nextLoanId := lt_of_lt_of_le hlt hstep.1
    rcases hstep.2 with ⟨h1, h2, _⟩ | ⟨h1, _, _, _, _⟩ | ⟨_, h2, _, _, _⟩
    · exact ih (exec σ op) loanId hlt' (by rw [h1]; exact hf) (by rw [h2]; exact ha)
    · rw [h1] at hf
      exact absurd hf (by simp)
    · rw [h2] at ha
      exact absurd ha (by simp)

/-- While a loan stays unfunded, its collateral slot never changes. -/
theorem execs_unfunded_collateral (ops : List Op) :
    ∀ (σ : ContractState) (loanId : Nat), loanId < σ.nextLoanId →
      ((execs σ ops).loans loanId).funded = false →
      ((execs σ ops).loans loanId).collateralAmount
        = (σ.loans loanId).collateralAmount := by
  induction ops with
  | nil => intro σ loanId _ _; rfl
  | cons op rest ih =>
    intro σ loanId hlt hfin
    have hstep := exec_loan_evolution σ op loanId hlt
    have hlt' : loanId < (exec σ op).nextLoanId := lt_of_lt_of_le hlt hstep.1
    have hfin' : ((execs (exec σ op) rest).loans loanId).funded = false := hfin
    have hcoll := ih (exec σ op) loanId hlt' hfin'
    have hfund1 : ((exec σ op).loans loanId).funded = false := by
      cases hb : ((exec σ op).loans loanId).funded
      · rfl
      · have hmono := execs_funded_mono rest (exec σ op) loanId hlt' hb
        rw [hmono] at hfin'
        exact absurd hfin' (by simp)
    rcases hstep.2 with ⟨h1, _, h3⟩ | ⟨_, _, h3, _, _⟩ | ⟨_, _, h3, _, _⟩
    · calc ((execs σ (op :: rest)).loans loanId).collateralAmount
          = ((exec σ op).loans loanId).collateralAmount := hcoll
        _ = (σ.loans loanId).collateralAmount := h3
    · rw [h3] at hfund1
      exact absurd hfund1 (by simp)
    · rw [h3] at hfund1
      exact absurd hfund1 (by simp)

/-! ## Claim theorems -/

/-- Claim C1, counterexample.  The claim states that within every execution
of `repay` every bookkeeping mutation of the loan record precedes any
value transfer.  On the funded sample loan, a repayment of `12` reaches
the cap and closes the loan, and its trace performs the transfer to the
lender before clearing `active` and zeroing `collateralAmount`
(RevenueLoan.sol lines 274 vs 279–283), so the trace fails
`mutationsBeforeTransfers`. -/
theorem C1_counterexample :
    repay σFunded 1 12 1 =
      Except.ok [Action.setTotalRepaid 1 12,
                 Action.emitEvent (Event.LoanRepaid 1 12),
                 Action.transfer 2 12,
                 Action.setActive 1 false,
                 Action.setCollateral 1 0,
                 Action.transfer 1 2,
                 Action.emitEvent (Event.LoanClosed 1)] ∧
    mutationsBeforeTransfers
      [Action.setTotalRepaid 1 12,
       Action.emitEvent (Event.LoanRepaid 1 12),
       Action.transfer 2 12,
       Action.setActive 1 false,
       Action.setCollateral 1 0,
       Action.transfer 1 2,
       Action.emitEvent (Event.LoanClosed 1)] = false :=
  ⟨rfl, rfl⟩

/-- Claim C1, amended.  In every successful execution of `repay`, the
`totalRepaid` update is the first action of the call (so it precedes every
value transfer), and every zeroing of `collateralAmount` immediately
precedes the collateral payout to the borrower; however, when the call
closes the loan, the clearing of the `active` flag (and the collateral
zeroing) happens only after the value transfer to the lender. -/
theorem C1_repay_effect_ordering :
    ∀ (σ : ContractState) (sender value loanId : Nat) (acts : List Action),
      repay σ sender value loanId = Except.ok acts →
      headIsTotalRepaidWrite acts = true ∧
      collateralZeroThenPayout acts = true ∧
      transferPrecedesActiveClear false acts = true := by
  intro σ sender value loanId acts h
  by_cases hp : σ.paused = true
  · simp [repay, hp] at h
  · by_cases hex : loanId = 0 ∨ σ.nextLoanId ≤ loanId
    · simp [repay, hp, hex] at h
    · by_cases hb : (σ.loans loanId).borrower = sender
      · by_cases hf : (σ.loans loanId).funded = false
        · simp [repay, hp, hex, hb, hf] at h
        · by_cases ha : (σ.loans loanId).active = false
          · simp [repay, hp, hex, hb, hf, ha] at h
          · by_cases hv : value = 0
            · simp [repay, hp, hex, hb, hf, ha, hv] at h
            · by_cases hreq : (σ.loans loanId).requiredRepayment
                  ≤ (σ.loans loanId).totalRepaid + value
              · by_cases hcol : 0 < (σ.loans loanId).collateralAmount
                · simp [repay, hp, hex, hb, hf, ha, hv, hreq, hcol] at h
                  subst h
                  simp [headIsTotalRepaidWrite, collateralZeroThenPayout,
                    transferPrecedesActiveClear, Action.isTransfer]
                · simp [repay, hp, hex, hb, hf, ha, hv, hreq, hcol] at h
                  subst h
                  simp [headIsTotalRepaidWrite, collateralZeroThenPayout,
                    transferPrecedesActiveClear, Action.isTransfer]
              · simp [repay, hp, hex, hb, hf, ha, hv, hreq] at h
                subst h
                simp [headIsTotalRepaidWrite, collateralZeroThenPayout,
                  transferPrecedesActiveClear, Action.isTransfer]
      · simp [repay, hp, hex, hb] at h

/-- Claim C1 witness for the amended theorem: the partial repayment of `5`
on the funded sample loan succeeds and its trace satisfies the amended
ordering. -/
theorem C1_repay_effect_ordering_witness :
    headIsTotalRepaidWrite
        [Action.setTotalRepaid 1 5,
         Action.emitEvent (Event.LoanRepaid 1 5),
         Action.transfer 2 5] = true ∧
      collateralZeroThenPayout
        [Action.setTotalRepaid 1 5,
         Action.emitEvent (Event.LoanRepaid 1 5),
         Action.transfer 2 5] = true ∧
      transferPrecedesActiveClear false
        [Action.setTotalRepaid 1 5,
         Action.emitEvent (Event.LoanRepaid 1 5),
         Action.transfer 2 5] = true :=
  C1_repay_effect_ordering σFunded 1 5 1 _ rfl

/-- Claim C2: for every successful `repay` of amount `value` on an
existing, funded, active loan called by its borrower while not paused,
the post-state `totalRepaid` equals the pre-state `totalRepaid` plus
`value`; the loan is closed (`active` cleared) exactly when the updated
`totalRepaid` reaches `principal * repaymentCapPercent / 100` (truncating
division); on closing, a positive collateral is zeroed and transferred to
the borrower.  `value` is unconstrained above zero, so overpayment past
the threshold is accepted. -/
theorem C2_repay_accounting :
    ∀ (σ : ContractState) (sender value loanId : Nat),
      σ.paused = false → loanId ≠ 0 → loanId < σ.nextLoanId →
      (σ.loans loanId).borrower = sender →
      (σ.loans loanId).funded = true →
      (σ.loans loanId).active = true →
      0 < value →
      ∃ acts, repay σ sender value loanId = Except.ok acts ∧
        ((runActions σ acts).loans loanId).totalRepaid
          = (σ.loans loanId).totalRepaid + value ∧
        (((runActions σ acts).loans loanId).active = false ↔
          (σ.loans loanId).requiredRepayment ≤ (σ.loans loanId).totalRepaid + value) ∧
        ((σ.loans loanId).requiredRepayment ≤ (σ.loans loanId).totalRepaid + value →
          0 < (σ.loans loanId).collateralAmount →
          ((runActions σ acts).loans loanId).collateralAmount = 0 ∧
          Action.transfer (σ.loans loanId).borrower (σ.loans loanId).collateralAmount ∈ acts) := by
  intro σ sender value loanId hp hid0 hidlt hb hf ha hv
  have hnotex : ¬(loanId = 0 ∨ σ.nextLoanId ≤ loanId) := by omega
  by_cases hreq : (σ.loans loanId).requiredRepayment ≤ (σ.loans loanId).totalRepaid + value
  · by_cases hcol : 0 < (σ.loans loanId).collateralAmount
    · have hrepay : repay σ sender value loanId =
          Except.ok [Action.setTotalRepaid loanId ((σ.loans loanId).totalRepaid + value),
                     Action.emitEvent (Event.LoanRepaid loanId value),
                     Action.transfer (σ.loans loanId).lender value,
                     Action.setActive loanId false,
                     Action.setCollateral loanId 0,
                     Action.transfer (σ.loans loanId).borrower (σ.loans loanId).collateralAmount,
                     Action.emitEvent (Event.LoanClosed loanId)] := by
        simp [repay, hp, hnotex, hb, hf, ha, Nat.pos_iff_ne_zero.mp hv, hreq, hcol]
      refine ⟨_, hrepay, ?_, ?_, ?_⟩
      · simp [runActions, applyAction, setLoanField]
      · simp [runActions, applyAction, setLoanField, hreq]
      · intro _ _
        refine ⟨?_, by simp⟩
        simp [runActions, applyAction, setLoanField]
    · have hrepay : repay σ sender value loanId =
          Except.ok [Action.setTotalRepaid loanId ((σ.loans loanId).totalRepaid + value),
                     Action.emitEvent (Event.LoanRepaid loanId value),
                     Action.transfer (σ.loans loanId).lender value,
                     Action.setActive loanId false,
                     Action.emitEvent (Event.LoanClosed loanId)] := by
        simp [repay, hp, hnotex, hb, hf, ha, Nat.pos_iff_ne_zero.mp hv, hreq, hcol]
      refine ⟨_, hrepay, ?_, ?_, ?_⟩
      · simp [runActions, applyAction, setLoanField]
      · simp [runActions, applyAction, setLoanField, hreq]
      · intro _ hc
        exact absurd hc hcol
  · have hrepay : repay σ sender value loanId =
        Except.ok [Action.setTotalRepaid loanId ((σ.loans loanId).totalRepaid + value),
                   Action.emitEvent (Event.LoanRepaid loanId value),
                   Action.transfer (σ.loans loanId).lender value] := by
      simp [repay, hp, hnotex, hb, hf, ha, Nat.pos_iff_ne_zero.mp hv, hreq]
    refine ⟨_, hrepay, ?_, ?_, ?_⟩
    · simp [runActions, applyAction, setLoanField]
    · simp [runActions, applyAction, setLoanField, ha, hreq]
    · intro hc
      exact absurd hc hreq

/-- Claim C2 witness: repaying `12` on the funded sample loan (cap
`12 = 10 * 120 / 100`) succeeds, brings `totalRepaid` from `0` to `12`,
closes the loan and returns the collateral `2` to borrower `1`. -/
theorem C2_repay_accounting_witness :
    ∃ acts, repay σFunded 1 12 1 = Except.ok acts ∧
      ((runActions σFunded acts).loans 1).totalRepaid
        = (σFunded.loans 1).totalRepaid + 12 ∧
      (((runActions σFunded acts).loans 1).active = false ↔
        (σFunded.loans 1).requiredRepayment ≤ (σFunded.loans 1).totalRepaid + 12) ∧
      ((σFunded.loans 1).requiredRepayment ≤ (σFunded.loans 1).totalRepaid + 12 →
        0 < (σFunded.loans 1).collateralAmount →
        ((runActions σFunded acts).loans 1).collateralAmount = 0 ∧
        Action.transfer (σFunded.loans 1).borrower (σFunded.loans 1).collateralAmount ∈ acts) :=
  C2_repay_accounting σFunded 1 12 1 rfl (by decide) (by decide) rfl rfl rfl (by decide)

/-- Claim C3: while not paused, `createLoan` succeeds exactly when
`principal > 0`, `revenueSharePercent > 0`, `repaymentCapPercent ≥ 100`,
`duration > 0` and the posted value does not exceed the principal; a
rejected call leaves the ledger unchanged; and at the boundary, posting
exactly the principal succeeds while posting `principal + 1` fails with
`CollateralTooHigh`. -/
theorem C3_create_validation :
    ∀ (σ : ContractState) (sender value amount share cap dur : Nat),
      σ.paused = false →
      ((∃ acts, createLoan σ sender value amount share cap dur = Except.ok acts) ↔
        (0 < amount ∧ 0 < share ∧ 100 ≤ cap ∧ 0 < dur ∧ value ≤ amount)) ∧
      (∀ e, createLoan σ sender value amount share cap dur = Except.error e →
        exec σ (Op.create sender value amount share cap dur) = σ) ∧
      (0 < amount → 0 < share → 100 ≤ cap → 0 < dur →
        (∃ acts, createLoan σ sender amount amount share cap dur = Except.ok acts) ∧
        createLoan σ sender (amount + 1) amount share cap dur
          = Except.error Err.CollateralTooHigh) := by
  intro σ sender value amount share cap dur hp
  refine ⟨?_, ?_, ?_⟩
  · constructor
    · rintro ⟨acts, h⟩
      by_cases h1 : amount = 0
      · simp [createLoan, hp, h1] at h
      · by_cases h2 : share = 0
        · simp [createLoan, hp, h1, h2] at h
        · by_cases h3 : cap < 100
          · simp [createLoan, hp, h1, h2, h3] at h
          · by_cases h4 : dur = 0
            · simp [createLoan, hp, h1, h2, h3, h4] at h
            · by_cases h5 : amount < value
              · simp [createLoan, hp, h1, h2, h3, h4, h5] at h
              · exact ⟨by omega, by omega, by omega, by omega, by omega⟩
    · rintro ⟨h1, h2, h3, h4, h5⟩
      refine ⟨[Action.setNextLoanId (σ.nextLoanId + 1),
               Action.storeLoan σ.nextLoanId
                 { borrower := sender, lender := 0, principal := amount,
                   revenueSharePercent := share, repaymentCapPercent := cap,
                   totalRepaid := 0, funded := false, active := false,
                   collateralAmount := value, startTime := 0, duration := dur },
               Action.emitEvent (Event.LoanCreated σ.nextLoanId sender amount
                 share cap dur value)], ?_⟩
      simp [createLoan, hp, Nat.pos_iff_ne_zero.mp h1, Nat.pos_iff_ne_zero.mp h2,
        Nat.not_lt.mpr h3, Nat.pos_iff_ne_zero.mp h4, Nat.not_lt.mpr h5]
  · intro e he
    simp [exec, callOf, he]
  · intro h1 h2 h3 h4
    constructor
    · refine ⟨[Action.setNextLoanId (σ.nextLoanId + 1),
               Action.storeLoan σ.nextLoanId
                 { borrower := sender, lender := 0, principal := amount,
                   revenueSharePercent := share, repaymentCapPercent := cap,
                   totalRepaid := 0, funded := false, active := false,
                   collateralAmount := amount, startTime := 0, duration := dur },
               Action.emitEvent (Event.LoanCreated σ.nextLoanId sender amount
                 share cap dur amount)], ?_⟩
      simp [createLoan, hp, Nat.pos_iff_ne_zero.mp h1, Nat.pos_iff_ne_zero.mp h2,
        Nat.not_lt.mpr h3, Nat.pos_iff_ne_zero.mp h4]
    · simp [createLoan, hp, Nat.pos_iff_ne_zero.mp h1, Nat.pos_iff_ne_zero.mp h2,
        Nat.not_lt.mpr h3, Nat.pos_iff_ne_zero.mp h4, Nat.lt_succ_self]

/-- Claim C3 witness: on the empty ledger, the creation parameters of the
spec scenario (principal 10, share 10, cap 120, duration 700) satisfy the
stated equivalence and boundary behaviour. -/
theorem C3_create_validation_witness :
    ((∃ acts, createLoan σEmpty 1 2 10 10 120 700 = Except.ok acts) ↔
      (0 < 10 ∧ 0 < 10 ∧ 100 ≤ 120 ∧ 0 < 700 ∧ 2 ≤ 10)) ∧
    (∀ e, createLoan σEmpty 1 2 10 10 120 700 = Except.error e →
      exec σEmpty (Op.create 1 2 10 10 120 700) = σEmpty) ∧
    (0 < 10 → 0 < 10 → 100 ≤ 120 → 0 < 700 →
      (∃ acts, createLoan σEmpty 1 10 10 10 120 700 = Except.ok acts) ∧
      createLoan σEmpty 1 (10 + 1) 10 10 120 700
        = Except.error Err.CollateralTooHigh) :=
  C3_create_validation σEmpty 1 2 10 10 120 700 rfl

/-- Claim C4: on a funded, active loan, a `claimCollateral` by the lender
while not paused fails with `LoanNotMatured` whenever the current time is
at most `startTime + duration` (boundary included), and a successful call
requires the current time strictly past `startTime + duration`, a
`totalRepaid` strictly below the required repayment and a positive
collateral. -/
theorem C4_claim_maturity_guard :
    ∀ (σ : ContractState) (sender now loanId : Nat),
      σ.paused = false → loanId ≠ 0 → loanId < σ.nextLoanId →
      (σ.loans loanId).lender = sender →
      (σ.loans loanId).funded = true →
      (σ.loans loanId).active = true →
      ((now ≤ (σ.loans loanId).startTime + (σ.loans loanId).duration →
        claimCollateral σ sender now loanId = Except.error Err.LoanNotMatured) ∧
       (∀ acts, claimCollateral σ sender now loanId = Except.ok acts →
        (σ.loans loanId).startTime + (σ.loans loanId).duration < now ∧
        (σ.loans loanId).totalRepaid < (σ.loans loanId).requiredRepayment ∧
        0 < (σ.loans loanId).collateralAmount)) := by
  intro σ sender now loanId hp hid0 hidlt hl hf ha
  have hnotex : ¬(loanId = 0 ∨ σ.nextLoanId ≤ loanId) := by omega
  constructor
  · intro hmat
    simp [claimCollateral, hp, hnotex, hl, hf, ha, hmat]
  · intro acts h
    by_cases hmat : now ≤ (σ.loans loanId).startTime + (σ.loans loanId).duration
    · simp [claimCollateral, hp, hnotex, hl, hf, ha, hmat] at h
    · by_cases hrep : (σ.loans loanId).requiredRepayment ≤ (σ.loans loanId).totalRepaid
      · simp [claimCollateral, hp, hnotex, hl, hf, ha, hmat, hrep] at h
      · by_cases hcol : (σ.loans loanId).collateralAmount = 0
        · simp [claimCollateral, hp, hnotex, hl, hf, ha, hmat, hrep, hcol] at h
        · exact ⟨by omega, by omega, by omega⟩

/-- Claim C4 witness: on the funded sample loan (funded at `100` for
`700`), the claim at exactly `startTime + duration = 800` fails with
`LoanNotMatured`, and any successful claim implies the three stated
conditions. -/
theorem C4_claim_maturity_guard_witness :
    ((800 ≤ (σFunded.loans 1).startTime + (σFunded.loans 1).duration →
      claimCollateral σFunded 2 800 1 = Except.error Err.LoanNotMatured) ∧
     (∀ acts, claimCollateral σFunded 2 800 1 = Except.ok acts →
      (σFunded.loans 1).startTime + (σFunded.loans 1).duration < 800 ∧
      (σFunded.loans 1).totalRepaid < (σFunded.loans 1).requiredRepayment ∧
      0 < (σFunded.loans 1).collateralAmount)) :=
  C4_claim_maturity_guard σFunded 2 800 1 rfl (by decide) (by decide) rfl rfl rfl

/-- Claim C5: every successful `claimCollateral` emits exactly the three
events `LoanDefaulted`, `CollateralClaimed`, `LoanClosed`, in that order,
all before the single outgoing transfer of the collateral to the lender. -/
theorem C5_claim_event_order :
    ∀ (σ : ContractState) (sender now loanId : Nat) (acts : List Action),
      claimCollateral σ sender now loanId = Except.ok acts →
      eventsOf acts = [Event.LoanDefaulted loanId,
                       Event.CollateralClaimed loanId sender,
                       Event.LoanClosed loanId] ∧
      eventsBeforeTransfers acts = true ∧
      acts.filter Action.isTransfer
        = [Action.transfer (σ.loans loanId).lender (σ.loans loanId).collateralAmount] := by
  intro σ sender now loanId acts h
  by_cases hp : σ.paused = true
  · simp [claimCollateral, hp] at h
  · by_cases hex : loanId = 0 ∨ σ.nextLoanId ≤ loanId
    · simp [claimCollateral, hp, hex] at h
    · by_cases hl : (σ.loans loanId).lender = sender
      · by_cases hf : (σ.loans loanId).funded = false
        · simp [claimCollateral, hp, hex, hl, hf] at h
        · by_cases ha : (σ.loans loanId).active = false
          · simp [claimCollateral, hp, hex, hl, hf, ha] at h
          · by_cases hmat : now ≤ (σ.loans loanId).startTime + (σ.loans loanId).duration
            · simp [claimCollateral, hp, hex, hl, hf, ha, hmat] at h
            · by_cases hrep : (σ.loans loanId).requiredRepayment
                  ≤ (σ.loans loanId).totalRepaid
              · simp [claimCollateral, hp, hex, hl, hf, ha, hmat, hrep] at h
              · by_cases hcol : (σ.loans loanId).collateralAmount = 0
                · simp [claimCollateral, hp, hex, hl, hf, ha, hmat, hrep, hcol] at h
                · simp [claimCollateral, hp, hex, hl, hf, ha, hmat, hrep, hcol] at h
                  subst h
                  simp [eventsOf, eventsBeforeTransfers, Action.eventOf,
                    Action.isTransfer, hl]
      · simp [claimCollateral, hp, hex, hl] at h

/-- Claim C5 witness: the successful claim on the funded sample loan at
time `801` emits the three events in order before its single transfer. -/
theorem C5_claim_event_order_witness :
    eventsOf [Action.setActive 1 false,
              Action.setCollateral 1 0,
              Action.emitEvent (Event.LoanDefaulted 1),
              Action.emitEvent (Event.CollateralClaimed 1 2),
              Action.emitEvent (Event.LoanClosed 1),
              Action.transfer 2 2]
        = [Event.LoanDefaulted 1, Event.CollateralClaimed 1 2, Event.LoanClosed 1] ∧
      eventsBeforeTransfers
        [Action.setActive 1 false,
         Action.setCollateral 1 0,
         Action.emitEvent (Event.LoanDefaulted 1),
         Action.emitEvent (Event.CollateralClaimed 1 2),
         Action.emitEvent (Event.LoanClosed 1),
         Action.transfer 2 2] = true ∧
      List.filter Action.isTransfer
          [Action.setActive 1 false,
           Action.setCollateral 1 0,
           Action.emitEvent (Event.LoanDefaulted 1),
           Action.emitEvent (Event.CollateralClaimed 1 2),
           Action.emitEvent (Event.LoanClosed 1),
           Action.transfer 2 2]
        = [Action.transfer (σFunded.loans 1).lender (σFunded.loans 1).collateralAmount] :=
  C5_claim_event_order σFunded 2 801 1 _ rfl

/-- Claim C7: while not paused, `fundLoan` fails with a distinct error for
each precondition violation — `LoanDoesNotExist`, `LoanAlreadyFunded`,
`LoanAlreadyActive`, `BorrowerCannotFundOwnLoan`, `IncorrectFundingAmount`
— every failing call leaves the ledger unchanged, and a second `fundLoan`
after a successful one fails with `LoanAlreadyFunded`. -/
theorem C7_fund_error_taxonomy :
    ∀ (σ : ContractState) (sender value now loanId : Nat),
      σ.paused = false →
      ((loanId = 0 ∨ σ.nextLoanId ≤ loanId) →
        fundLoan σ sender value now loanId = Except.error Err.LoanDoesNotExist) ∧
      (loanId ≠ 0 → loanId < σ.nextLoanId → (σ.loans loanId).funded = true →
        fundLoan σ sender value now loanId = Except.error Err.LoanAlreadyFunded) ∧
      (loanId ≠ 0 → loanId < σ.nextLoanId → (σ.loans loanId).funded = false →
        (σ.loans loanId).active = true →
        fundLoan σ sender value now loanId = Except.error Err.LoanAlreadyActive) ∧
      (loanId ≠ 0 → loanId < σ.nextLoanId → (σ.loans loanId).funded = false →
        (σ.loans loanId).active = false → sender = (σ.loans loanId).borrower →
        fundLoan σ sender value now loanId = Except.error Err.BorrowerCannotFundOwnLoan) ∧
      (loanId ≠ 0 → loanId < σ.nextLoanId → (σ.loans loanId).funded = false →
        (σ.loans loanId).active = false → sender ≠ (σ.loans loanId).borrower →
        value ≠ (σ.loans loanId).principal →
        fundLoan σ sender value now loanId = Except.error Err.IncorrectFundingAmount) ∧
      (∀ e, fundLoan σ sender value now loanId = Except.error e →
        exec σ (Op.fund sender value now loanId) = σ) ∧
      (∀ acts, fundLoan σ sender value now loanId = Except.ok acts →
        ∀ s2 v2 n2, fundLoan (runActions σ acts) s2 v2 n2 loanId
          = Except.error Err.LoanAlreadyFunded) := by
  intro σ sender value now loanId hp
  refine ⟨?_, ?_, ?_, ?_, ?_, ?_, ?_⟩
  · intro hex
    simp [fundLoan, hp, hex]
  · intro h0 hlt hf
    have hnotex : ¬(loanId = 0 ∨ σ.nextLoanId ≤ loanId) := by omega
    simp [fundLoan, hp, hnotex, hf]
  · intro h0 hlt hf ha
    have hnotex : ¬(loanId = 0 ∨ σ.nextLoanId ≤ loanId) := by omega
    simp [fundLoan, hp, hnotex, hf, ha]
  · intro h0 hlt hf ha hs
    have hnotex : ¬(loanId = 0 ∨ σ.nextLoanId ≤ loanId) := by omega
    simp [fundLoan, hp, hnotex, hf, ha, hs]
  · intro h0 hlt hf ha hs hv
    have hnotex : ¬(loanId = 0 ∨ σ.nextLoanId ≤ loanId) := by omega
    simp [fundLoan, hp, hnotex, hf, ha, hs, hv]
  · intro e he
    simp [exec, callOf, he]
  · intro acts h s2 v2 n2
    by_cases hex : loanId = 0 ∨ σ.nextLoanId ≤ loanId
    · simp [fundLoan, hp, hex] at h
    · by_cases hf : (σ.loans loanId).funded = true
      · simp [fundLoan, hp, hex, hf] at h
      · by_cases ha : (σ.loans loanId).active = true
        · simp [fundLoan, hp, hex, hf, ha] at h
        · by_cases hs : sender = (σ.loans loanId).borrower
          · simp [fundLoan, hp, hex, hf, ha, hs] at h
          · by_cases hv : value = (σ.loans loanId).principal
            · simp [fundLoan, hp, hex, hf, ha, hs, hv] at h
              subst h
              simp [fundLoan, runActions, applyAction, setLoanField, hp, hex]
            · simp [fundLoan, hp, hex, hf, ha, hs, hv] at h

/-- Claim C7 witness: on the ledger with the unfunded sample loan, funding
loan `1` with the exact principal succeeds, and immediately funding it
again fails with `LoanAlreadyFunded`; a wrong amount fails with
`IncorrectFundingAmount`. -/
theorem C7_fund_error_taxonomy_witness :
    (1 ≠ 0 → 1 < σCreated.nextLoanId → (σCreated.loans 1).funded = false →
      (σCreated.loans 1).active = false → 2 ≠ (σCreated.loans 1).borrower →
      5 ≠ (σCreated.loans 1).principal →
      fundLoan σCreated 2 5 100 1 = Except.error Err.IncorrectFundingAmount) ∧
    (∀ acts, fundLoan σCreated 2 5 100 1 = Except.ok acts →
      ∀ s2 v2 n2, fundLoan (runActions σCreated acts) s2 v2 n2 1
        = Except.error Err.LoanAlreadyFunded) ∧
    fundLoan (runActions σCreated
        [Action.setLender 1 2, Action.setFunded 1 true,
         Action.setActive 1 true, Action.setStartTime 1 100,
         Action.emitEvent (Event.LoanFunded 1 2), Action.transfer 1 10])
        3 10 200 1 = Except.error Err.LoanAlreadyFunded :=
  ⟨((C7_fund_error_taxonomy σCreated 2 5 100 1 rfl).2.2.2.2.1),
   ((C7_fund_error_taxonomy σCreated 2 5 100 1 rfl).2.2.2.2.2.2),
   ((C7_fund_error_taxonomy σCreated 2 10 100 1 rfl).2.2.2.2.2.2) _ rfl 3 10 200⟩

/-- Claim C8: while paused, every invocation of `createLoan`, `fundLoan`,
`repay` and `claimCollateral` fails with the same `EnforcedPause` error
regardless of its arguments; a successful `pause` or `unpause` implies the
caller is the owner; and `getLoan` is insensitive to the pause flag. -/
theorem C8_pause_gate :
    ∀ (σ : ContractState) (sender : Nat),
      (σ.paused = true →
        (∀ s v a r c d, createLoan σ s v a r c d = Except.error Err.EnforcedPause) ∧
        (∀ s v n id, fundLoan σ s v n id = Except.error Err.EnforcedPause) ∧
        (∀ s v id, repay σ s v id = Except.error Err.EnforcedPause) ∧
        (∀ s n id, claimCollateral σ s n id = Except.error Err.EnforcedPause)) ∧
      ((∃ acts, pause σ sender = Except.ok acts) → sender = σ.owner) ∧
      ((∃ acts, unpause σ sender = Except.ok acts) → sender = σ.owner) ∧
      (∀ id, getLoan { σ with paused := true } id
        = getLoan { σ with paused := false } id) := by
  intro σ sender
  refine ⟨?_, ?_, ?_, ?_⟩
  · intro hp
    exact ⟨fun s v a r c d => by simp [createLoan, hp],
           fun s v n id => by simp [fundLoan, hp],
           fun s v id => by simp [repay, hp],
           fun s n id => by simp [claimCollateral, hp]⟩
  · rintro ⟨acts, h⟩
    by_cases hs : sender = σ.owner
    · exact hs
    · simp [pause, hs] at h
  · rintro ⟨acts, h⟩
    by_cases hs : sender = σ.owner
    · exact hs
    · simp [unpause, hs] at h
  · intro id
    rfl

/-- Claim C8 witness: with the pause switch on, each of the four mutating
entry points fails with `EnforcedPause` on the sample loan; the owner (`0`)
can pause the running ledger and unpause the paused one; and `getLoan` of
loan `1` ignores the pause flag. -/
theorem C8_pause_gate_witness :
    createLoan σPaused 1 2 10 10 120 700 = Except.error Err.EnforcedPause ∧
    fundLoan σPaused 2 10 100 1 = Except.error Err.EnforcedPause ∧
    repay σPaused 1 5 1 = Except.error Err.EnforcedPause ∧
    claimCollateral σPaused 2 801 1 = Except.error Err.EnforcedPause ∧
    0 = σFunded.owner ∧
    0 = σPaused.owner ∧
    getLoan { σPaused with paused := true } 1
      = getLoan { σPaused with paused := false } 1 :=
  ⟨((C8_pause_gate σPaused 0).1 rfl).1 1 2 10 10 120 700,
   ((C8_pause_gate σPaused 0).1 rfl).2.1 2 10 100 1,
   ((C8_pause_gate σPaused 0).1 rfl).2.2.1 1 5 1,
   ((C8_pause_gate σPaused 0).1 rfl).2.2.2 2 801 1,
   (C8_pause_gate σFunded 0).2.1 ⟨_, rfl⟩,
   (C8_pause_gate σPaused 0).2.2.1 ⟨_, rfl⟩,
   (C8_pause_gate σPaused 0).2.2.2 1⟩

/-- Claim C9: `repay` imposes no deadline — on a funded, active loan it
succeeds for the borrower at any time, in particular strictly past
`startTime + duration`; if the payment reaches the required repayment the
loan closes, a positive collateral is paid back to the borrower, and a
subsequent `claimCollateral` by the lender fails with `LoanNotActive`. -/
theorem C9_repay_after_maturity :
    ∀ (σ : ContractState) (sender value loanId t : Nat),
      σ.paused = false → loanId ≠ 0 → loanId < σ.nextLoanId →
      (σ.loans loanId).borrower = sender →
      (σ.loans loanId).funded = true →
      (σ.loans loanId).active = true →
      0 < value →
      (σ.loans loanId).startTime + (σ.loans loanId).duration < t →
      ∃ acts, repay σ sender value loanId = Except.ok acts ∧
        ((σ.loans loanId).requiredRepayment ≤ (σ.loans loanId).totalRepaid + value →
          ((runActions σ acts).loans loanId).active = false ∧
          ((runActions σ acts).loans loanId).collateralAmount = 0 ∧
          (0 < (σ.loans loanId).collateralAmount →
            Action.transfer (σ.loans loanId).borrower (σ.loans loanId).collateralAmount ∈ acts) ∧
          (∀ t2, claimCollateral (runActions σ acts) ((σ.loans loanId).lender) t2 loanId
            = Except.error Err.LoanNotActive)) := by
  intro σ sender value loanId t hp hid0 hidlt hb hf ha hv hmat
  have hnotex : ¬(loanId = 0 ∨ σ.nextLoanId ≤ loanId) := by omega
  by_cases hreq : (σ.loans loanId).requiredRepayment ≤ (σ.loans loanId).totalRepaid + value
  · by_cases hcol : 0 < (σ.loans loanId).collateralAmount
    · have hrepay : repay σ sender value loanId =
          Except.ok [Action.setTotalRepaid loanId ((σ.loans loanId).totalRepaid + value),
                     Action.emitEvent (Event.LoanRepaid loanId value),
                     Action.transfer (σ.loans loanId).lender value,
                     Action.setActive loanId false,
                     Action.setCollateral loanId 0,
                     Action.transfer (σ.loans loanId).borrower (σ.loans loanId).collateralAmount,
                     Action.emitEvent (Event.LoanClosed loanId)] := by
        simp [repay, hp, hnotex, hb, hf, ha, Nat.pos_iff_ne_zero.mp hv, hreq, hcol]
      refine ⟨_, hrepay, fun _ => ⟨?_, ?_, fun _ => by simp, ?_⟩⟩
      · simp [runActions, applyAction, setLoanField]
      · simp [runActions, applyAction, setLoanField]
      · intro t2
        simp [claimCollateral, runActions, applyAction, setLoanField, hp, hnotex, hf]
    · have hrepay : repay σ sender value loanId =
          Except.ok [Action.setTotalRepaid loanId ((σ.loans loanId).totalRepaid + value),
                     Action.emitEvent (Event.LoanRepaid loanId value),
                     Action.transfer (σ.loans loanId).lender value,
                     Action.setActive loanId false,
                     Action.emitEvent (Event.LoanClosed loanId)] := by
        simp [repay, hp, hnotex, hb, hf, ha, Nat.pos_iff_ne_zero.mp hv, hreq, hcol]
      refine ⟨_, hrepay, fun _ => ⟨?_, ?_, fun hc => absurd hc hcol, ?_⟩⟩
      · simp [runActions, applyAction, setLoanField]
      · simp [runActions, applyAction, setLoanField]
        omega
      · intro t2
        simp [claimCollateral, runActions, applyAction, setLoanField, hp, hnotex, hf]
  · have hrepay : repay σ sender value loanId =
        Except.ok [Action.setTotalRepaid loanId ((σ.loans loanId).totalRepaid + value),
                   Action.emitEvent (Event.LoanRepaid loanId value),
                   Action.transfer (σ.loans loanId).lender value] := by
      simp [repay, hp, hnotex, hb, hf, ha, Nat.pos_iff_ne_zero.mp hv, hreq]
    exact ⟨_, hrepay, fun hc => absurd hc hreq⟩

/-- Claim C9 witness: on the funded sample loan (maturity `800`), the
borrower repays `12` at a time past maturity (`801`), the loan closes,
collateral returns to the borrower, and the lender's subsequent claim
fails with `LoanNotActive`. -/
theorem C9_repay_after_maturity_witness :
    ∃ acts, repay σFunded 1 12 1 = Except.ok acts ∧
      ((σFunded.loans 1).requiredRepayment ≤ (σFunded.loans 1).totalRepaid + 12 →
        ((runActions σFunded acts).loans 1).active = false ∧
        ((runActions σFunded acts).loans 1).collateralAmount = 0 ∧
        (0 < (σFunded.loans 1).collateralAmount →
          Action.transfer (σFunded.loans 1).borrower (σFunded.loans 1).collateralAmount ∈ acts) ∧
        (∀ t2, claimCollateral (runActions σFunded acts) ((σFunded.loans 1).lender) t2 1
          = Except.error Err.LoanNotActive)) :=
  C9_repay_after_maturity σFunded 1 12 1 801 rfl (by decide) (by decide) rfl rfl rfl
    (by decide) (by decide)

/-- Claim C6: over any transaction sequence on an existing loan, `funded`
once true is never unset, and once a transaction turns the `active` flag
from true to false it stays false through every later transaction — a
closed or defaulted loan is never re-funded or reactivated. -/
theorem C6_no_resurrection :
    ∀ (σ : ContractState) (loanId : Nat) (op : Op) (ops : List Op),
      loanId < σ.nextLoanId →
      ((σ.loans loanId).funded = true →
        ((execs σ (op :: ops)).loans loanId).funded = true) ∧
      ((σ.loans loanId).active = true →
        ((exec σ op).loans loanId).active = false →
        ((execs σ (op :: ops)).loans loanId).active = false) := by
  intro σ loanId op ops hlt
  constructor
  · intro hf
    exact execs_funded_mono (op :: ops) σ loanId hlt hf
  · intro ha hclear
    have hstep := exec_loan_evolution σ op loanId hlt
    have hlt' : loanId < (exec σ op).nextLoanId := lt_of_lt_of_le hlt hstep.1
    have hfunded' : ((exec σ op).loans loanId).funded = true := by
      rcases hstep.2 with ⟨_, h2, _⟩ | ⟨_, h2, _, _, _⟩ | ⟨_, _, h3, _, _⟩
      · rw [h2, ha] at hclear
        exact absurd hclear (by simp)
      · rw [h2] at ha
        exact absurd ha (by simp)
      · exact h3
    exact (execs_closed_stays ops (exec σ op) loanId hlt' hfunded' hclear).2

/-- Claim C6 witness: on the funded sample loan, the closing repayment of
`12` clears `active`; after a further attempt to fund the closed loan,
`funded` is still true and `active` still false. -/
theorem C6_no_resurrection_witness :
    ((σFunded.loans 1).funded = true →
      ((execs σFunded (Op.repay 1 12 1 :: [Op.fund 2 10 900 1])).loans 1).funded = true) ∧
    ((σFunded.loans 1).active = true →
      ((exec σFunded (Op.repay 1 12 1)).loans 1).active = false →
      ((execs σFunded (Op.repay 1 12 1 :: [Op.fund 2 10 900 1])).loans 1).active = false) :=
  C6_no_resurrection σFunded 1 (Op.repay 1 12 1) [Op.fund 2 10 900 1] (by decide)

/-- Claim C10: an existing loan's collateral slot is changed by a
transaction only when the loan was funded and active and the transaction
is a `repay` or a `claimCollateral` of that very loan; consequently, as
long as a loan remains unfunded — and no cancel or withdraw entry point
exists in the contract — its collateral stays held by the ledger
unchanged through any transaction sequence. -/
theorem C10_collateral_egress :
    ∀ (σ : ContractState) (loanId : Nat),
      loanId ≠ 0 → loanId < σ.nextLoanId →
      (∀ op, ((exec σ op).loans loanId).collateralAmount
          ≠ (σ.loans loanId).collateralAmount →
        (σ.loans loanId).funded = true ∧ (σ.loans loanId).active = true ∧
        ((∃ s v, op = Op.repay s v loanId) ∨ (∃ s n, op = Op.claim s n loanId))) ∧
      (∀ ops, ((execs σ ops).loans loanId).funded = false →
        ((execs σ ops).loans loanId).collateralAmount
          = (σ.loans loanId).collateralAmount) := by
  intro σ loanId hid0 hlt
  constructor
  · intro op hchange
    have hstep := exec_loan_evolution σ op loanId hlt
    rcases hstep.2 with ⟨_, _, h3⟩ | ⟨_, _, _, _, h5⟩ | ⟨h1, h2, _, _, h5⟩
    · exact absurd h3 hchange
    · exact absurd h5 hchange
    · exact ⟨h1, h2, h5⟩
  · intro ops hfin
    exact execs_unfunded_collateral ops σ loanId hlt hfin

/-- Claim C10 witness: on the funded sample ledger the only collateral
movement is the lender's claim of loan `1`; and on the unfunded sample
loan, a wrong-amount fund, a premature repay and a stranger's claim all
fail, leaving the posted collateral `2` in place. -/
theorem C10_collateral_egress_witness :
    ((σFunded.loans 1).funded = true ∧ (σFunded.loans 1).active = true ∧
      ((∃ s v, Op.claim 2 900 1 = Op.repay s v 1) ∨
       (∃ s n, Op.claim 2 900 1 = Op.claim s n 1))) ∧
    ((execs σCreated [Op.fund 3 9 100 1, Op.repay 1 5 1, Op.claim 2 900 1]).loans 1).collateralAmount
      = (σCreated.loans 1).collateralAmount :=
  ⟨(C10_collateral_egress σFunded 1 (by decide) (by decide)).1
      (Op.claim 2 900 1) (by decide),
   (C10_collateral_egress σCreated 1 (by decide) (by decide)).2
      [Op.fund 3 9 100 1, Op.repay 1 5 1, Op.claim 2 900 1] (by decide)⟩

end RevenueLoan
